import Mathlib

/-!
Verification of the edx-val video abstraction layer.

The repository stores records describing videos (by an opaque external
edx_video_id), their encoded renditions per delivery profile, and the
courses that reference them, behind an api module (`create_video`,
`create_profile`, `get_video_info`, `get_videos_for_ids`,
`get_urls_for_profiles`, `get_videos_for_course`) that translates
database/validation exceptions into domain-specific error types.  The api
module itself is not in the sources at hand (only `edxval/config/waffle.py`
and the test suite `edxval/tests/test_api.py` are), so the api operations
below are modelled from the spec and constrained by the behaviour the test
suite pins down.  `waffle.py` is embedded directly from its source.
-/

namespace Edxval

/- ===== edxval/config/waffle.py (embedded from source) ===== -/

/-- `WAFFLE_NAMESPACE = 'edxval'` from edxval/config/waffle.py. -/
def WAFFLE_NAMESPACE : String := "edxval"

/-- `waffle_name(toggle_name)` from edxval/config/waffle.py: appends the
waffle namespace and a dot in front of the toggle's name. -/
def waffle_name (toggle_name : String) : String :=
  WAFFLE_NAMESPACE ++ "." ++ toggle_name

/-- The name of the `OVERRIDE_EXISTING_IMPORTED_TRANSCRIPTS` WaffleFlag
declared in edxval/config/waffle.py (the flag object's name argument). -/
def OVERRIDE_EXISTING_IMPORTED_TRANSCRIPTS : String :=
  waffle_name ("override_existing_imported_transcripts")

/- ===== Data model ===== -/

/-- Modelled from the spec: a stored video record, described by an opaque
external id (`edx_video_id`), a client-supplied id and a duration
(modelled as an integer; only comparisons on it matter here). -/
structure Video where
  edx_video_id : String
  client_video_id : String
  duration : Int
deriving DecidableEq, Repr

/-- Modelled from the spec: a delivery profile record (e.g. "mobile",
"desktop"). -/
structure Profile where
  profile_name : String
  extension : String
  width : Int
  height : Int
deriving DecidableEq, Repr

/-- Modelled from the spec: an encoded rendition of a video for one
delivery profile. -/
structure EncodedVideo where
  video_id : String
  profile_name : String
  url : String
  file_size : Int
  bitrate : Int
deriving DecidableEq, Repr

/-- Modelled from the spec: a record that a course references a video. -/
structure CourseVideo where
  course_id : String
  video_id : String
deriving DecidableEq, Repr

/-- Modelled from the spec: the relational store behind the api, kept in
insertion order as the database would present unordered scans. -/
structure ValState where
  profiles : List Profile
  videos : List Video
  encoded_videos : List EncodedVideo
  course_videos : List CourseVideo
deriving DecidableEq, Repr

/-- The domain-specific error types raised by the api module, plus the
framework `ValidationError` that the test suite shows escaping
`create_video` untranslated. -/
inductive ValError
  | videoNotFound
  | internalError
  | cannotCreateError
  | validationError
deriving DecidableEq, Repr

/-- `VideoSortField` from the api module: the supported sort fields. -/
inductive VideoSortField
  | client_video_id
  | edx_video_id
  | duration
deriving DecidableEq, Repr

/-- `SortDirection` from the api module. -/
inductive SortDirection
  | asc
  | desc
deriving DecidableEq, Repr

/- ===== Sorting machinery for get_videos_for_ids ===== -/

/-- Modelled from the spec: the in-memory sort-key tuple order used by
`get_videos_for_ids`, comparing a key drawn from the video and breaking
ties by `edx_video_id` so the order is total (the tie-break is what the
sort test of the test suite exercises on equal durations). -/
def keyLe {α : Type} [LinearOrder α] (k : Video → α) (a b : Video) : Prop :=
  k a < k b ∨ (k a = k b ∧ a.edx_video_id.data ≤ b.edx_video_id.data)

instance {α : Type} [LinearOrder α] (k : Video → α) :
    DecidableRel (keyLe k) := fun a b => by
  unfold keyLe; infer_instance

instance {α : Type} [LinearOrder α] (k : Video → α) :
    IsTotal Video (keyLe k) := by
  constructor
  intro a b
  rcases lt_trichotomy (k a) (k b) with h | h | h
  · exact Or.inl (Or.inl h)
  · rcases le_total a.edx_video_id.data b.edx_video_id.data with h2 | h2
    · exact Or.inl (Or.inr ⟨h, h2⟩)
    · exact Or.inr (Or.inr ⟨h.symm, h2⟩)
  · exact Or.inr (Or.inl h)

instance {α : Type} [LinearOrder α] (k : Video → α) :
    IsTrans Video (keyLe k) := by
  constructor
  rintro a b c (hab | ⟨hab, hab2⟩) (hbc | ⟨hbc, hbc2⟩)
  · exact Or.inl (hab.trans hbc)
  · exact Or.inl (hbc ▸ hab)
  · exact Or.inl (hab ▸ hbc)
  · exact Or.inr ⟨hab.trans hbc, hab2.trans hbc2⟩

/-- The total order on videos used when sorting by a given field. -/
def videoLe : VideoSortField → Video → Video → Prop
  | .client_video_id => keyLe (fun v => v.client_video_id.data)
  | .edx_video_id => keyLe (fun v => v.edx_video_id.data)
  | .duration => keyLe (fun v => v.duration)

instance (f : VideoSortField) : DecidableRel (videoLe f) := by
  cases f <;> (unfold videoLe; infer_instance)

instance (f : VideoSortField) : IsTotal Video (videoLe f) := by
  cases f <;> (unfold videoLe; infer_instance)

instance (f : VideoSortField) : IsTrans Video (videoLe f) := by
  cases f <;> (unfold videoLe; infer_instance)

/-- Comparison of two videos on just the requested sort field (no
tie-break); used to state what "ordered by that field" means. -/
def fieldLe : VideoSortField → Video → Video → Prop
  | .client_video_id => fun a b => a.client_video_id.data ≤ b.client_video_id.data
  | .edx_video_id => fun a b => a.edx_video_id.data ≤ b.edx_video_id.data
  | .duration => fun a b => a.duration ≤ b.duration

instance (f : VideoSortField) : DecidableRel (fieldLe f) := by
  cases f <;> (unfold fieldLe; infer_instance)

theorem videoLe_imp_fieldLe (f : VideoSortField) (a b : Video)
    (h : videoLe f a b) : fieldLe f a b := by
  cases f <;>
    (rcases h with h | ⟨h1, _⟩
     · exact le_of_lt h
     · exact le_of_eq h1)

/-- "Ordered by the field in the direction": adjacent-pairwise comparison
on the sort field, forwards for ascending and backwards for descending. -/
def sortedInDir (f : VideoSortField) : SortDirection → List Video → Prop
  | .asc => fun l => l.Pairwise (fieldLe f)
  | .desc => fun l => l.Pairwise (fun a b => fieldLe f b a)

instance (f : VideoSortField) (d : SortDirection) (l : List Video) :
    Decidable (sortedInDir f d l) := by
  cases d <;> (unfold sortedInDir; infer_instance)

/- ===== get_videos_for_ids ===== -/

/-- Modelled from the spec: `get_videos_for_ids(edx_video_ids, sort_field,
sort_dir)` composes an ORM filter (`edx_video_id__in=edx_video_ids`, a pure
membership test) with an in-memory sort on sort-key tuples; descending
order reverses the ascending order.  With no sort field the filtered rows
come back in store order. -/
def get_videos_for_ids (edx_video_ids : List String)
    (sort_field : Option VideoSortField) (sort_dir : SortDirection)
    (st : ValState) : List Video :=
  let filtered := st.videos.filter (fun v => edx_video_ids.contains v.edx_video_id)
  match sort_field with
  | none => filtered
  | some f =>
    match sort_dir with
    | .asc => filtered.insertionSort (videoLe f)
    | .desc => (filtered.insertionSort (videoLe f)).reverse

/- ===== get_video_info ===== -/

/-- Fault injection points observed by the test suite: the test mocks
`Video.__init__` to raise `DatabaseError` and `VideoSerializer.__init__`
to raise a generic `Exception`. -/
inductive Fault
  | noFault
  | databaseError
  | serializerError
deriving DecidableEq, Repr

/-- Look up the stored video with the given external id. -/
def find_video (st : ValState) (edx_video_id : String) : Option Video :=
  st.videos.find? (fun v => v.edx_video_id == edx_video_id)

/-- Modelled from the spec: `get_video_info(edx_video_id)` looks the video
up, serializes it, and translates exceptions into domain-specific error
types: a missing video raises `ValVideoNotFoundError`, while a database
error during lookup or any unexpected exception during serialization is
caught and re-raised as `ValInternalError`. -/
def get_video_info (st : ValState) (edx_video_id : String) (fault : Fault) :
    Except ValError Video :=
  match fault with
  | .databaseError => .error .internalError
  | _ =>
    match find_video st edx_video_id with
    | none => .error .videoNotFound
    | some v =>
      match fault with
      | .serializerError => .error .internalError
      | _ => .ok v

/- ===== create_profile ===== -/

/-- Characters admitted by the id validators of the models (letters,
digits, hyphen, underscore). -/
def isValidIdChar (c : Char) : Bool :=
  c.isAlphanum || c == '-' || c == '_'

/-- Modelled from the spec: the profile-serializer validation.  The test
suite rejects profiles with a negative width, a negative height, a missing
extension, or an invalid profile name. -/
def profile_data_is_valid (p : Profile) : Prop :=
  0 ≤ p.width ∧ 0 ≤ p.height ∧ p.extension ≠ "" ∧
    p.profile_name ≠ "" ∧ p.profile_name.data.all isValidIdChar = true

instance (p : Profile) : Decidable (profile_data_is_valid p) := by
  unfold profile_data_is_valid; infer_instance

/-- Modelled from the spec: `create_profile(profile_data)` validates the
data through the serializer, stores one new profile record on success and
returns its `profile_name`; a validation failure is translated into
`ValCannotCreateError`. -/
def create_profile (st : ValState) (data : Profile) :
    Except ValError (String × ValState) :=
  if profile_data_is_valid data then
    .ok (data.profile_name, { st with profiles := st.profiles ++ [data] })
  else
    .error .cannotCreateError

/- ===== create_video ===== -/

/-- The `profile` value carried by one encoded-video entry of the input:
either a profile name (the well-formed case) or a whole profile dict (the
malformed case the test suite feeds in `test_invalid_profile`). -/
inductive ProfileRef
  | name (profile_name : String)
  | dict (p : Profile)
deriving DecidableEq, Repr

/-- True when the profile reference is a malformed dict. -/
def ProfileRef.isDict : ProfileRef → Bool
  | .dict _ => true
  | .name _ => false

/-- Input data for one encoded video inside `create_video`'s input. -/
structure EncodedVideoData where
  profile : ProfileRef
  url : String
  file_size : Int
  bitrate : Int
deriving DecidableEq, Repr

/-- Input data for `create_video`; `encoded_videos` is `none` when the
key is absent from the input dict. -/
structure VideoData where
  edx_video_id : String
  client_video_id : String
  duration : Int
  encoded_videos : Option (List EncodedVideoData)
deriving DecidableEq, Repr

/-- Modelled from the spec: the video-serializer field validation.  The
test suite rejects video data with a negative duration, an invalid
`edx_video_id`, or missing encoded-video data. -/
def video_data_is_valid (d : VideoData) : Prop :=
  0 ≤ d.duration ∧ d.edx_video_id ≠ "" ∧
    d.edx_video_id.data.all isValidIdChar = true ∧
    d.encoded_videos.isSome = true

instance (d : VideoData) : Decidable (video_data_is_valid d) := by
  unfold video_data_is_valid; infer_instance

/-- The profile name an encoded-video entry refers to. -/
def ProfileRef.refName : ProfileRef → String
  | .name n => n
  | .dict p => p.profile_name

/-- Modelled from the spec: `create_video(video_data)` validates the data
through the serializer and translates validation failures into
`ValCannotCreateError`; stores one new video record (and its encoded
videos) on success and returns its `edx_video_id`.  Per the test suite, an
encoded-video entry whose `profile` value is a dict instead of a profile
name makes the framework's `ValidationError` escape untranslated, and the
function requires the referenced profile records to exist. -/
def create_video (st : ValState) (data : VideoData) :
    Except ValError (String × ValState) :=
  if video_data_is_valid data then
    let evs := data.encoded_videos.getD []
    if evs.any (fun ev => ev.profile.isDict) then
      .error .validationError
    else if evs.all (fun ev =>
        st.profiles.any (fun p => p.profile_name == ev.profile.refName)) then
      let newVideo : Video :=
        { edx_video_id := data.edx_video_id,
          client_video_id := data.client_video_id,
          duration := data.duration }
      let newEncoded := evs.map (fun ev =>
        { video_id := data.edx_video_id,
          profile_name := ev.profile.refName,
          url := ev.url,
          file_size := ev.file_size,
          bitrate := ev.bitrate : EncodedVideo })
      .ok (data.edx_video_id,
        { st with videos := st.videos ++ [newVideo],
                  encoded_videos := st.encoded_videos ++ newEncoded })
    else
      .error .cannotCreateError
  else
    .error .cannotCreateError

/- ===== get_urls_for_profiles / get_videos_for_course ===== -/

/-- Modelled from the spec: `get_url_for_profile(edx_video_id, profile)`
returns the url of the video's encoding for that profile, or None when the
video id is unknown or the video has no encoding for that profile; it
raises nothing. -/
def get_url_for_profile (st : ValState) (edx_video_id : String)
    (profile : String) : Option String :=
  match find_video st edx_video_id with
  | none => none
  | some _ =>
    (st.encoded_videos.find? (fun ev =>
      ev.video_id == edx_video_id && ev.profile_name == profile)).map
      (fun ev => ev.url)

/-- Modelled from the spec: `get_urls_for_profiles(edx_video_id,
profiles)` builds a mapping with one entry per requested profile name,
each entry holding `get_url_for_profile` of that name. -/
def get_urls_for_profiles (st : ValState) (edx_video_id : String)
    (profiles : List String) : List (String × Option String) :=
  profiles.map (fun p => (p, get_url_for_profile st edx_video_id p))

/-- Modelled from the spec: `get_videos_for_course(course_id)` returns the
videos referenced by that course, through the course-video join records. -/
def get_videos_for_course (st : ValState) (course_id : String) : List Video :=
  st.videos.filter (fun v =>
    st.course_videos.any (fun cv =>
      cv.course_id == course_id && cv.video_id == v.edx_video_id))

/- ===== Concrete fixtures mirroring the test suite's constants ===== -/

/-- The "super-soaker" video of the test constants. -/
def fishVideo : Video :=
  { edx_video_id := "super-soaker", client_video_id := "Shallow Hal",
    duration := 122 }

/-- The "little-star" video of the test constants; its duration ties with
the fish video's. -/
def starVideo : Video :=
  { edx_video_id := "little-star", client_video_id := "TWINKLE TWINKLE",
    duration := 122 }

/-- The extra video of the sort test, made to sort differently from the
other two by each field. -/
def otherVideo : Video :=
  { edx_video_id := "other-video", client_video_id := "other video",
    duration := 555 }

/-- The "mobile" profile of the test constants. -/
def mobileProfile : Profile :=
  { profile_name := "mobile", extension := "mp4", width := 320, height := 240 }

/-- The "desktop" profile of the test constants. -/
def desktopProfile : Profile :=
  { profile_name := "desktop", extension := "mp4", width := 1280,
    height := 720 }

/-- The mobile encoding of the fish video. -/
def fishMobileEncoding : EncodedVideo :=
  { video_id := "super-soaker", profile_name := "mobile",
    url := "http://www.meowmix.com", file_size := 25556, bitrate := 9600 }

/-- The desktop encoding of the fish video. -/
def fishDesktopEncoding : EncodedVideo :=
  { video_id := "super-soaker", profile_name := "desktop",
    url := "http://www.meowmagic.com", file_size := 25556, bitrate := 9600 }

/-- The store the Get* test fixtures build: two profiles, the fish video
with two encodings, and one course referencing it. -/
def sampleState : ValState :=
  { profiles := [mobileProfile, desktopProfile],
    videos := [fishVideo],
    encoded_videos := [fishMobileEncoding, fishDesktopEncoding],
    course_videos := [{ course_id := "test-course",
                        video_id := "super-soaker" }] }

/-- The store of the sort test: three videos. -/
def sortState : ValState :=
  { profiles := [mobileProfile, desktopProfile],
    videos := [fishVideo, starVideo, otherVideo],
    encoded_videos := [fishMobileEncoding, fishDesktopEncoding],
    course_videos := [{ course_id := "test-course",
                        video_id := "super-soaker" }] }

/- ===== Helper lemmas ===== -/

theorem filter_ids_congr (st : ValState) {ids ids' : List String}
    (h : ∀ x, x ∈ ids ↔ x ∈ ids') :
    st.videos.filter (fun v => ids.contains v.edx_video_id) =
      st.videos.filter (fun v => ids'.contains v.edx_video_id) := by
  apply List.filter_congr
  intro v _
  have hm := h v.edx_video_id
  rw [Bool.eq_iff_iff]
  exact ⟨fun hc => List.elem_iff.mpr (hm.mp (List.elem_iff.mp hc)),
    fun hc => List.elem_iff.mpr (hm.mpr (List.elem_iff.mp hc))⟩

theorem gvfi_perm (ids : List String) (fOpt : Option VideoSortField)
    (dir : SortDirection) (st : ValState) :
    (get_videos_for_ids ids fOpt dir st).Perm
      (st.videos.filter (fun v => ids.contains v.edx_video_id)) := by
  unfold get_videos_for_ids
  cases fOpt with
  | none => exact List.Perm.refl _
  | some f =>
    cases dir with
    | asc => exact List.perm_insertionSort _ _
    | desc => exact (List.reverse_perm _).trans (List.perm_insertionSort _ _)

theorem gvfi_sorted (ids : List String) (f : VideoSortField)
    (dir : SortDirection) (st : ValState) :
    sortedInDir f dir (get_videos_for_ids ids (some f) dir st) := by
  have hs : (List.insertionSort (videoLe f)
      (st.videos.filter (fun v => ids.contains v.edx_video_id))).Pairwise
        (fieldLe f) :=
    (List.sorted_insertionSort (videoLe f) _).imp
      (videoLe_imp_fieldLe f _ _)
  cases dir with
  | asc => exact hs
  | desc =>
    unfold get_videos_for_ids sortedInDir
    exact List.pairwise_reverse.mpr hs

/- ===== Claim theorems ===== -/

/-- C10: `waffle_name(s)` returns `"edxval."` concatenated with `s`, and
the `OVERRIDE_EXISTING_IMPORTED_TRANSCRIPTS` flag is named
`"edxval.override_existing_imported_transcripts"`. -/
theorem waffle_name_spec :
    (∀ s : String, waffle_name s = "edxval." ++ s) ∧
      OVERRIDE_EXISTING_IMPORTED_TRANSCRIPTS =
        "edxval.override_existing_imported_transcripts" := by
  constructor
  · intro s
    show ("edxval" ++ "." ++ s : String) = "edxval." ++ s
    have h : ("edxval" ++ "." : String) = "edxval." := rfl
    rw [String.append_assoc] at *
    rfl
  · rfl

/-- C2: for every sort field and fixed id list, the descending result of
`get_videos_for_ids` is exactly the reverse of the ascending result,
ties included (the order is total thanks to the edx_video_id tie-break,
so this holds with no side condition). -/
theorem get_videos_desc_is_reverse_asc (st : ValState) (f : VideoSortField)
    (ids : List String) :
    get_videos_for_ids ids (some f) SortDirection.desc st =
      (get_videos_for_ids ids (some f) SortDirection.asc st).reverse := by
  simp [get_videos_for_ids]

/-- C1: for every supported sort field and direction, `get_videos_for_ids`
returns exactly the stored videos whose id is in the requested list
(independently of the order the ids are supplied in), ordered by that
field in that direction. -/
theorem get_videos_for_ids_sort_spec (st : ValState) (f : VideoSortField)
    (dir : SortDirection) (ids ids' : List String)
    (h : ∀ x, x ∈ ids ↔ x ∈ ids') :
    get_videos_for_ids ids (some f) dir st =
        get_videos_for_ids ids' (some f) dir st ∧
      (get_videos_for_ids ids (some f) dir st).Perm
        (st.videos.filter (fun v => ids.contains v.edx_video_id)) ∧
      sortedInDir f dir (get_videos_for_ids ids (some f) dir st) := by
  refine ⟨?_, gvfi_perm ids (some f) dir st, gvfi_sorted ids f dir st⟩
  unfold get_videos_for_ids
  rw [filter_ids_congr st h]

/-- Witness for C1: on the sort test's store, requesting the three videos
by duration ascending with the ids supplied in reversed order yields the
same, duly sorted, list as supplying them in expected order — concretely
`[starVideo, fishVideo, otherVideo]` (the duration tie between star and
fish broken by edx_video_id). -/
theorem get_videos_for_ids_sort_spec_witness :
    (get_videos_for_ids ["other-video", "little-star", "super-soaker"]
          (some VideoSortField.duration) SortDirection.asc sortState =
        get_videos_for_ids ["super-soaker", "little-star", "other-video"]
          (some VideoSortField.duration) SortDirection.asc sortState ∧
      (get_videos_for_ids ["other-video", "little-star", "super-soaker"]
          (some VideoSortField.duration) SortDirection.asc sortState).Perm
        (sortState.videos.filter (fun v =>
          (["other-video", "little-star", "super-soaker"] : List String).contains
            v.edx_video_id)) ∧
      sortedInDir VideoSortField.duration SortDirection.asc
        (get_videos_for_ids ["other-video", "little-star", "super-soaker"]
          (some VideoSortField.duration) SortDirection.asc sortState)) ∧
    get_videos_for_ids ["other-video", "little-star", "super-soaker"]
        (some VideoSortField.duration) SortDirection.asc sortState =
      [starVideo, fishVideo, otherVideo] := by
  constructor
  · apply get_videos_for_ids_sort_spec sortState VideoSortField.duration
      SortDirection.asc
    intro x
    constructor <;> (intro hx; simp only [List.mem_cons] at hx ⊢; tauto)
  · decide

/-- C9: when the stored videos have pairwise-distinct ids, duplicates in
the requested id list change nothing (the result equals the result for the
deduplicated list), the result has no duplicate entries, and it contains
each stored video whose id was requested exactly once (membership
characterization plus nodup). -/
theorem get_videos_for_ids_duplicates (st : ValState)
    (fOpt : Option VideoSortField) (dir : SortDirection) (ids : List String)
    (h : (st.videos.map Video.edx_video_id).Nodup) :
    get_videos_for_ids ids fOpt dir st =
        get_videos_for_ids ids.dedup fOpt dir st ∧
      (get_videos_for_ids ids fOpt dir st).Nodup ∧
      ∀ v, v ∈ get_videos_for_ids ids fOpt dir st ↔
        v ∈ st.videos ∧ v.edx_video_id ∈ ids := by
  have hvd : st.videos.Nodup := h.of_map
  have hperm := gvfi_perm ids fOpt dir st
  refine ⟨?_, ?_, ?_⟩
  · unfold get_videos_for_ids
    have hc : ∀ x, x ∈ ids ↔ x ∈ ids.dedup :=
      fun x => (List.mem_dedup).symm
    rw [filter_ids_congr st hc]
  · exact hperm.nodup_iff.mpr (hvd.filter _)
  · intro v
    rw [hperm.mem_iff, List.mem_filter]
    constructor
    · rintro ⟨hv, hc⟩
      exact ⟨hv, List.elem_iff.mp hc⟩
    · rintro ⟨hv, hc⟩
      exact ⟨hv, List.elem_iff.mpr hc⟩

/-- Witness for C9: on the Get* fixture store (whose single video has a
unique id), requesting `["super-soaker", "super-soaker"]` returns the fish
video exactly once. -/
theorem get_videos_for_ids_duplicates_witness :
    (get_videos_for_ids ["super-soaker", "super-soaker"] none
          SortDirection.asc sampleState =
        get_videos_for_ids (["super-soaker", "super-soaker"] : List String).dedup
          none SortDirection.asc sampleState ∧
      (get_videos_for_ids ["super-soaker", "super-soaker"] none
          SortDirection.asc sampleState).Nodup ∧
      ∀ v, v ∈ get_videos_for_ids ["super-soaker", "super-soaker"] none
          SortDirection.asc sampleState ↔
        v ∈ sampleState.videos ∧
          v.edx_video_id ∈ (["super-soaker", "super-soaker"] : List String)) ∧
    get_videos_for_ids ["super-soaker", "super-soaker"] none
        SortDirection.asc sampleState = [fishVideo] := by
  constructor
  · exact get_videos_for_ids_duplicates sampleState none SortDirection.asc
      ["super-soaker", "super-soaker"] (by decide)
  · decide

/-- C3: when a database error hits the lookup, or an unexpected exception
hits the serialization of a found video, `get_video_info` reports the
domain-specific `ValInternalError` instead of letting the framework
exception escape. -/
theorem get_video_info_internal_error (st : ValState) (id : String)
    (fault : Fault)
    (h : fault = Fault.databaseError ∨
      (fault = Fault.serializerError ∧ (find_video st id).isSome = true)) :
    get_video_info st id fault = .error ValError.internalError := by
  rcases h with h | ⟨h, hv⟩
  · subst h; rfl
  · subst h
    unfold get_video_info
    rcases hfv : find_video st id with _ | v
    · rw [hfv] at hv; simp at hv
    · rfl

/-- Witness for C3: both mocked faults of the test suite, applied to the
fixture store and the fish video's id, yield `ValInternalError`. -/
theorem get_video_info_internal_error_witness :
    get_video_info sampleState "super-soaker" Fault.databaseError =
        .error ValError.internalError ∧
      get_video_info sampleState "super-soaker" Fault.serializerError =
        .error ValError.internalError :=
  ⟨get_video_info_internal_error sampleState "super-soaker"
      Fault.databaseError (Or.inl rfl),
    get_video_info_internal_error sampleState "super-soaker"
      Fault.serializerError (Or.inr ⟨rfl, by decide⟩)⟩

/-- C5: for every id that matches no stored video record, `get_video_info`
(with no injected fault) reports the domain-specific
`ValVideoNotFoundError`. -/
theorem get_video_info_not_found (st : ValState) (id : String)
    (h : ∀ v ∈ st.videos, v.edx_video_id ≠ id) :
    get_video_info st id Fault.noFault = .error ValError.videoNotFound := by
  unfold get_video_info
  have hfv : find_video st id = none := by
    unfold find_video
    rw [List.find?_eq_none]
    intro v hv
    simp only [beq_iff_eq]
    exact h v hv
  rw [hfv]

/-- Witness for C5: on the fixture store, the unknown id of the test, the
empty string, and the unicode id all yield `ValVideoNotFoundError`. -/
theorem get_video_info_not_found_witness :
    get_video_info sampleState "non_existant-video__" Fault.noFault =
        .error ValError.videoNotFound ∧
      get_video_info sampleState "" Fault.noFault =
        .error ValError.videoNotFound ∧
      get_video_info sampleState "๓ﻉѻฝ๓ٱซ" Fault.noFault =
        .error ValError.videoNotFound :=
  ⟨get_video_info_not_found sampleState "non_existant-video__" (by decide),
    get_video_info_not_found sampleState "" (by decide),
    get_video_info_not_found sampleState "๓ﻉѻฝ๓ٱซ" (by decide)⟩

/- ===== C4: create_video error translation ===== -/

/-- The fish video data with a negative duration
(`VIDEO_DICT_NEGATIVE_DURATION` of the test constants). -/
def negativeDurationInput : VideoData :=
  { edx_video_id := "super-soaker", client_video_id := "Shallow Hal",
    duration := -100, encoded_videos := none }

/-- The fish video data with well-formed encoded-video entries except that
the `profile` value is a whole profile dict instead of a profile name
(`test_invalid_profile` of the test suite). -/
def profileDictInput : VideoData :=
  { edx_video_id := "super-soaker", client_video_id := "Shallow Hal",
    duration := 122,
    encoded_videos := some
      [{ profile := ProfileRef.dict mobileProfile,
         url := "http://www.meowmix.com", file_size := 25556,
         bitrate := 9600 }] }

/-- Counterexample to C4 as stated: on input whose encoded-video entry
carries a malformed (dict-valued) `profile`, `create_video` lets the
framework's `ValidationError` escape; it is not translated into
`ValCannotCreateError` (the test suite asserts exactly this escape in
`test_invalid_profile`). -/
theorem create_video_profile_dict_counterexample :
    create_video sampleState profileDictInput =
        .error ValError.validationError ∧
      ValError.validationError ≠ ValError.cannotCreateError := by
  constructor
  · rfl
  · decide

/-- C4 (amended): a validation failure of the video data itself — negative
duration, invalid edx_video_id, or missing encoded-video data — is
translated into `ValCannotCreateError`; but a malformed (dict-valued)
`profile` inside an otherwise valid input escapes as the framework's
`ValidationError`, untranslated. -/
theorem create_video_error_translation (st : ValState) (data : VideoData) :
    (¬ video_data_is_valid data →
        create_video st data = .error ValError.cannotCreateError) ∧
      (video_data_is_valid data →
        (data.encoded_videos.getD []).any (fun ev => ev.profile.isDict) =
          true →
        create_video st data = .error ValError.validationError) := by
  constructor
  · intro h
    unfold create_video
    rw [if_neg h]
  · intro h hdict
    unfold create_video
    rw [if_pos h, if_pos hdict]

/-- Witness for C4 (amended): the negative-duration input is rejected with
`ValCannotCreateError`, and the dict-profile input is rejected with the
untranslated `ValidationError`, both on the fixture store. -/
theorem create_video_error_translation_witness :
    create_video sampleState negativeDurationInput =
        .error ValError.cannotCreateError ∧
      create_video sampleState profileDictInput =
        .error ValError.validationError :=
  ⟨(create_video_error_translation sampleState negativeDurationInput).1
      (by decide),
    (create_video_error_translation sampleState profileDictInput).2
      (by decide) (by decide)⟩

/- ===== C6: successful creation ===== -/

/-- The valid `create_video` input of `test_create_video`: the fish video
with one encoded video on the existing "mobile" profile. -/
def fishCreateInput : VideoData :=
  { edx_video_id := "super-soaker", client_video_id := "Shallow Hal",
    duration := 122,
    encoded_videos := some
      [{ profile := ProfileRef.name ("mobile"),
         url := "http://www.meowmix.com", file_size := 25556,
         bitrate := 9600 }] }

/-- A store holding only the two profiles, as `CreateVideoTest.setUp`
builds before any video exists. -/
def profilesOnlyState : ValState :=
  { profiles := [mobileProfile, desktopProfile], videos := [],
    encoded_videos := [], course_videos := [] }

/-- C6: on valid input whose encoded-video entries name already-existing
profiles, `create_video` succeeds, returns the input's `edx_video_id`, and
the new store holds exactly one additional video record (the one built
from the input); likewise `create_profile` on valid data succeeds,
returns the input's `profile_name`, and appends exactly that one profile
record to the store. -/
theorem create_video_and_profile_store_one (st : ValState) :
    (∀ data : VideoData,
        video_data_is_valid data →
        (∀ ev ∈ data.encoded_videos.getD [], ev.profile.isDict = false) →
        (∀ ev ∈ data.encoded_videos.getD [],
          st.profiles.any
            (fun p => p.profile_name == ev.profile.refName) = true) →
        ∃ st', create_video st data = .ok (data.edx_video_id, st') ∧
          st'.videos = st.videos ++
            [{ edx_video_id := data.edx_video_id,
               client_video_id := data.client_video_id,
               duration := data.duration }] ∧
          st'.videos.length = st.videos.length + 1) ∧
      (∀ p : Profile, profile_data_is_valid p →
        create_profile st p =
            .ok (p.profile_name,
              { st with profiles := st.profiles ++ [p] }) ∧
          (st.profiles ++ [p]).length = st.profiles.length + 1) := by
  constructor
  · intro data hv hdict hprof
    have hno : (data.encoded_videos.getD []).any
        (fun ev => ev.profile.isDict) = false :=
      List.any_eq_false.mpr (fun ev hev => by simp [hdict ev hev])
    have hall : (data.encoded_videos.getD []).all
        (fun ev => st.profiles.any
          (fun p => p.profile_name == ev.profile.refName)) = true :=
      List.all_eq_true.mpr hprof
    refine ⟨{ st with
        videos := st.videos ++
          [{ edx_video_id := data.edx_video_id,
             client_video_id := data.client_video_id,
             duration := data.duration }],
        encoded_videos := st.encoded_videos ++
          (data.encoded_videos.getD []).map (fun ev =>
            { video_id := data.edx_video_id,
              profile_name := ev.profile.refName,
              url := ev.url, file_size := ev.file_size,
              bitrate := ev.bitrate }) }, ?_, rfl, by simp⟩
    simp only [create_video]
    rw [if_pos hv, if_neg (by simp [hno]), if_pos hall]
  · intro p hp
    constructor
    · simp only [create_profile]
      rw [if_pos hp]
    · simp

/-- Witness for C6: creating the fish video on the profiles-only store
yields the store with exactly the fish video, and creating the desktop
profile on the empty store yields the store with exactly that profile. -/
theorem create_video_and_profile_store_one_witness :
    (∃ st', create_video profilesOnlyState fishCreateInput =
          .ok (fishCreateInput.edx_video_id, st') ∧
        st'.videos = profilesOnlyState.videos ++
          [{ edx_video_id := fishCreateInput.edx_video_id,
             client_video_id := fishCreateInput.client_video_id,
             duration := fishCreateInput.duration }] ∧
        st'.videos.length = profilesOnlyState.videos.length + 1) ∧
      create_profile profilesOnlyState desktopProfile =
        .ok (desktopProfile.profile_name,
          { profilesOnlyState with
              profiles := profilesOnlyState.profiles ++ [desktopProfile] }) :=
  ⟨(create_video_and_profile_store_one profilesOnlyState).1 fishCreateInput
      (by decide) (by decide) (by decide),
    ((create_video_and_profile_store_one profilesOnlyState).2 desktopProfile
      (by decide)).1⟩

/- ===== C7: get_urls_for_profiles ===== -/

theorem find_encoding_of_match (st : ValState) (eid p : String)
    (ev : EncodedVideo) (hmem : ev ∈ st.encoded_videos)
    (hvid : ev.video_id = eid) (hp : ev.profile_name = p) :
    ∃ x, st.encoded_videos.find? (fun e =>
        e.video_id == eid && e.profile_name == p) = some x ∧
      x ∈ st.encoded_videos ∧ x.video_id = eid ∧ x.profile_name = p := by
  rcases hfind : st.encoded_videos.find? (fun e =>
      e.video_id == eid && e.profile_name == p) with _ | x
  · exfalso
    have hne := List.find?_eq_none.mp hfind ev hmem
    simp only [Bool.and_eq_true, beq_iff_eq] at hne
    exact hne ⟨hvid, hp⟩
  · have hpred := List.find?_some hfind
    simp only [Bool.and_eq_true, beq_iff_eq] at hpred
    exact ⟨x, hfind, List.mem_of_find?_eq_some hfind, hpred.1, hpred.2⟩

/-- C7: `get_urls_for_profiles` returns one entry per requested profile
name (exactly one when the names are distinct); every entry holds
`get_url_for_profile` of its name, which is the url of the video's
encoding for that profile when one exists — some matching encoding's url
in general, and exactly that encoding's url under the database's unique
constraint on the (video, profile) pair — and `None` when the video id is
unknown or the video has no encoding for that profile; no exception
is raised (the function is total by construction). -/
theorem get_urls_for_profiles_spec (st : ValState) (eid : String)
    (profiles : List String) (h : profiles.Nodup) :
    (get_urls_for_profiles st eid profiles).map Prod.fst = profiles ∧
      (∀ p ∈ profiles,
        (get_urls_for_profiles st eid profiles).countP
          (fun e => e.1 == p) = 1) ∧
      (∀ e ∈ get_urls_for_profiles st eid profiles,
        e.2 = get_url_for_profile st eid e.1) ∧
      (∀ p,
        (find_video st eid = none → get_url_for_profile st eid p = none) ∧
        (∀ u, get_url_for_profile st eid p = some u →
          ∃ ev ∈ st.encoded_videos,
            ev.video_id = eid ∧ ev.profile_name = p ∧ ev.url = u) ∧
        ((∀ ev ∈ st.encoded_videos,
            ¬(ev.video_id = eid ∧ ev.profile_name = p)) →
          get_url_for_profile st eid p = none) ∧
        ((find_video st eid).isSome = true →
          ∀ ev ∈ st.encoded_videos, ev.video_id = eid →
            ev.profile_name = p →
          ∃ u, get_url_for_profile st eid p = some u ∧
            ∃ ev2 ∈ st.encoded_videos,
              ev2.video_id = eid ∧ ev2.profile_name = p ∧ ev2.url = u) ∧
        ((∀ a ∈ st.encoded_videos, ∀ b ∈ st.encoded_videos,
            a.video_id = b.video_id → a.profile_name = b.profile_name →
              a = b) →
          (find_video st eid).isSome = true →
          ∀ ev ∈ st.encoded_videos, ev.video_id = eid →
            ev.profile_name = p →
          get_url_for_profile st eid p = some ev.url)) := by
  refine ⟨?_, ?_, ?_, ?_⟩
  · have hmap : ∀ l : List String,
        (l.map (fun p => (p, get_url_for_profile st eid p))).map Prod.fst
          = l := by
      intro l
      induction l with
      | nil => rfl
      | cons a t ih => simp only [List.map_cons, ih]
    rw [get_urls_for_profiles]
    exact hmap profiles
  · intro p hp
    rw [get_urls_for_profiles, List.countP_map]
    show profiles.count p = 1
    exact List.count_eq_one_of_mem h hp
  · intro e he
    rcases List.mem_map.mp he with ⟨q, _, rfl⟩
    rfl
  · intro p
    refine ⟨?_, ?_, ?_, ?_, ?_⟩
    · intro hfv
      unfold get_url_for_profile
      rw [hfv]
    · intro u hu
      unfold get_url_for_profile at hu
      rcases hfv : find_video st eid with _ | v
      · rw [hfv] at hu; simp at hu
      · rw [hfv] at hu
        rcases hfind : st.encoded_videos.find? (fun ev =>
            ev.video_id == eid && ev.profile_name == p) with _ | ev
        · rw [hfind] at hu; simp at hu
        · rw [hfind] at hu
          simp only [Option.map_some'] at hu
          have hmem := List.mem_of_find?_eq_some hfind
          have hpred := List.find?_some hfind
          simp only [Bool.and_eq_true, beq_iff_eq] at hpred
          exact ⟨ev, hmem, hpred.1, hpred.2, by injection hu⟩
    · intro hnone
      unfold get_url_for_profile
      rcases hfv : find_video st eid with _ | v
      · rfl
      · have : st.encoded_videos.find? (fun ev =>
            ev.video_id == eid && ev.profile_name == p) = none := by
          rw [List.find?_eq_none]
          intro ev hev
          have := hnone ev hev
          simp only [Bool.and_eq_true, beq_iff_eq]
          tauto
        rw [this]
        rfl
    · intro hv ev hmem hvid hp
      rcases hfv : find_video st eid with _ | v
      · rw [hfv] at hv; simp at hv
      · have hgu : get_url_for_profile st eid p =
            (st.encoded_videos.find? (fun e =>
              e.video_id == eid && e.profile_name == p)).map
              (fun e => e.url) := by
          unfold get_url_for_profile
          rw [hfv]
        obtain ⟨x, hfind, hxmem, hxvid, hxp⟩ :=
          find_encoding_of_match st eid p ev hmem hvid hp
        exact ⟨x.url, by rw [hgu, hfind]; rfl,
          x, hxmem, hxvid, hxp, rfl⟩
    · intro hkey hv ev hmem hvid hp
      rcases hfv : find_video st eid with _ | v
      · rw [hfv] at hv; simp at hv
      · have hgu : get_url_for_profile st eid p =
            (st.encoded_videos.find? (fun e =>
              e.video_id == eid && e.profile_name == p)).map
              (fun e => e.url) := by
          unfold get_url_for_profile
          rw [hfv]
        obtain ⟨x, hfind, hxmem, hxvid, hxp⟩ :=
          find_encoding_of_match st eid p ev hmem hvid hp
        have hxe : x = ev :=
          hkey x hxmem ev hmem (hxvid.trans hvid.symm)
            (hxp.trans hp.symm)
        rw [hgu, hfind, hxe]
        rfl

/-- Witness for C7: on the fixture store and the fish video, requesting
the distinct profiles "mobile" and "desktop" yields their urls, while an
unknown video id or unknown profile names yield `none` entries. -/
theorem get_urls_for_profiles_spec_witness :
    ((get_urls_for_profiles sampleState "super-soaker"
          ["mobile", "desktop"]).map Prod.fst = ["mobile", "desktop"] ∧
        (∀ p ∈ (["mobile", "desktop"] : List String),
          (get_urls_for_profiles sampleState "super-soaker"
            ["mobile", "desktop"]).countP (fun e => e.1 == p) = 1) ∧
        (∀ e ∈ get_urls_for_profiles sampleState "super-soaker"
            ["mobile", "desktop"],
          e.2 = get_url_for_profile sampleState "super-soaker" e.1) ∧
        (∀ p,
          (find_video sampleState "super-soaker" = none →
            get_url_for_profile sampleState "super-soaker" p = none) ∧
          (∀ u, get_url_for_profile sampleState "super-soaker" p = some u →
            ∃ ev ∈ sampleState.encoded_videos,
              ev.video_id = "super-soaker" ∧ ev.profile_name = p ∧
                ev.url = u) ∧
          ((∀ ev ∈ sampleState.encoded_videos,
              ¬(ev.video_id = "super-soaker" ∧ ev.profile_name = p)) →
            get_url_for_profile sampleState "super-soaker" p = none) ∧
          ((find_video sampleState "super-soaker").isSome = true →
            ∀ ev ∈ sampleState.encoded_videos,
              ev.video_id = "super-soaker" → ev.profile_name = p →
            ∃ u, get_url_for_profile sampleState "super-soaker" p =
                some u ∧
              ∃ ev2 ∈ sampleState.encoded_videos,
                ev2.video_id = "super-soaker" ∧ ev2.profile_name = p ∧
                  ev2.url = u) ∧
          ((∀ a ∈ sampleState.encoded_videos,
              ∀ b ∈ sampleState.encoded_videos,
              a.video_id = b.video_id → a.profile_name = b.profile_name →
                a = b) →
            (find_video sampleState "super-soaker").isSome = true →
            ∀ ev ∈ sampleState.encoded_videos,
              ev.video_id = "super-soaker" → ev.profile_name = p →
            get_url_for_profile sampleState "super-soaker" p =
              some ev.url))) ∧
      get_urls_for_profiles sampleState "super-soaker" ["mobile", "desktop"]
          = [("mobile", some ("http://www.meowmix.com")),
             ("desktop", some ("http://www.meowmagic.com"))] ∧
        get_urls_for_profiles sampleState "not found" ["mobile"]
          = [("mobile", none)] :=
  ⟨get_urls_for_profiles_spec sampleState "super-soaker"
      ["mobile", "desktop"] (by decide),
    by decide, by decide⟩

/- ===== C8: get_videos_for_course ===== -/

/-- C8: `get_videos_for_course` returns exactly the stored videos
referenced by the given course id through a course-video record, and the
empty list when the course references no video. -/
theorem get_videos_for_course_spec (st : ValState) (c : String) :
    (∀ v, v ∈ get_videos_for_course st c ↔
        v ∈ st.videos ∧ ∃ cv ∈ st.course_videos,
          cv.course_id = c ∧ cv.video_id = v.edx_video_id) ∧
      ((∀ cv ∈ st.course_videos, cv.course_id ≠ c) →
        get_videos_for_course st c = []) := by
  constructor
  · intro v
    rw [get_videos_for_course, List.mem_filter, List.any_eq_true]
    simp only [Bool.and_eq_true, beq_iff_eq]
  · intro hnone
    rw [get_videos_for_course, List.filter_eq_nil_iff]
    intro v _
    rw [Bool.not_eq_true, List.any_eq_false]
    intro cv hcv
    simp only [Bool.and_eq_true, beq_iff_eq, not_and]
    intro hc
    exact absurd hc (hnone cv hcv)

/-- Witness for C8: on the fixture store, the course "test-course" yields
exactly the fish video and the course "unknown" yields the empty list. -/
theorem get_videos_for_course_spec_witness :
    get_videos_for_course sampleState "unknown" = [] ∧
      get_videos_for_course sampleState "test-course" = [fishVideo] :=
  ⟨(get_videos_for_course_spec sampleState "unknown").2 (by decide),
    by decide⟩

end Edxval
